import Mathlib

/-!
Verification of the download orchestration and result-aggregation core of
video-kb-simple against its natural-language specification.

The Python data model and operations are shallowly embedded as executable
Lean definitions: pydantic models become structures, pure functions become
Lean functions, filesystem and network effects become explicit oracle
parameters (directory-existence flags, extractor outcomes, rename-success
oracles), and Python exceptions become `Except` / `Option` values.
Filenames and URLs are modelled as `List Char` so that the character-level
operations of the source (substring search, prefix tests, dot-splitting)
can be reasoned about directly; human-readable messages stay `String`.
-/

namespace VideoKB

/-! ## Data model (src/video_kb_simple/models.py) -/

/-- `PlaylistType` enumeration (models.py lines 21-28). -/
inductive PlaylistType where
  | channel_videos
  | channel_shorts
  | channel_live
  | playlist
  | single_video
deriving DecidableEq

/-- A filesystem path, split as pathlib keeps it: the directory part is an
opaque label (the fixed output directory in every use the claims touch) and
the final component is the character list the source's name manipulations
read. -/
structure FSPath where
  dir : String
  fname : List Char
deriving DecidableEq

/-- `DownloadedFile` (models.py lines 42-48). -/
structure DownloadedFile where
  path : FSPath
  file_type : String
  language : Option String := none
  size_bytes : Option Nat := none
deriving DecidableEq

/-- `VideoResult` (models.py lines 51-60): the outcome of one per-video
task. -/
structure VideoResult where
  video_id : Option String := none
  title : Option String := none
  url : Option String := none
  upload_date : Option String := none
  warnings : List String := []
  errors : List String := []
  downloaded_files : List DownloadedFile := []
deriving DecidableEq

namespace VideoResult

/-- `VideoResult.is_full_success` (models.py lines 62-65):
`not self.warnings and not self.errors`. -/
def is_full_success (vr : VideoResult) : Bool :=
  vr.warnings.isEmpty && vr.errors.isEmpty

/-- `VideoResult.is_partial_success` (models.py lines 67-70):
`bool(self.warnings) and not self.errors`. -/
def is_partial_success (vr : VideoResult) : Bool :=
  !vr.warnings.isEmpty && vr.errors.isEmpty

/-- `VideoResult.is_fail` (models.py lines 72-75): `bool(self.errors)`. -/
def is_fail (vr : VideoResult) : Bool :=
  !vr.errors.isEmpty

end VideoResult

/-- `PlaylistDetails` (models.py lines 31-39). -/
structure PlaylistDetails where
  playlist_id : Option String := none
  playlist_type : Option PlaylistType := none
  title : Option String := none
  url : String
  uploader : Option String := none
  video_urls : List String := []
deriving DecidableEq

/-- `PlaylistResult` (models.py lines 78-84). `processing_time_seconds` is a
float in the source and plays no part in any claim; it is not modelled. -/
structure PlaylistResult where
  playlist_details : Option PlaylistDetails := none
  video_results : List VideoResult := []
  total_requested : Nat := 0
deriving DecidableEq

namespace PlaylistResult

/-- `PlaylistResult.success_downloads` (models.py lines 86-89). -/
def success_downloads (pr : PlaylistResult) : Nat :=
  pr.video_results.countP VideoResult.is_full_success

/-- `PlaylistResult.partial_success_downloads` (models.py lines 91-94). -/
def partial_success_downloads (pr : PlaylistResult) : Nat :=
  pr.video_results.countP VideoResult.is_partial_success

/-- `PlaylistResult.fail_downloads` (models.py lines 96-99). -/
def fail_downloads (pr : PlaylistResult) : Nat :=
  pr.video_results.countP VideoResult.is_fail

end PlaylistResult

/-! ## Result constructors (src/video_kb_simple/ytdlp_handler.py) -/

namespace YTDLPHandler

/-- `YTDLPHandler._create_failed_result` (ytdlp_handler.py lines 389-411).
Python truthiness of `if not errors:` covers both `None` and the empty
list, so both turn into `[error_message]`. -/
def _create_failed_result (video_url error_message : String)
    (video_id : Option String := none) (title : Option String := none)
    (downloaded_files : Option (List DownloadedFile) := none)
    (warnings : Option (List String) := none)
    (errors : Option (List String) := none) : VideoResult :=
  let errs : List String :=
    match errors with
    | none => [error_message]
    | some [] => [error_message]
    | some es => es
  { video_id := video_id
    title := title
    url := some video_url
    warnings := warnings.getD []
    errors := errs
    downloaded_files := downloaded_files.getD [] }

/-- `YTDLPHandler._create_success_result` (ytdlp_handler.py lines 413-432). -/
def _create_success_result (video_id title video_url : String)
    (upload_date : Option String := none)
    (downloaded_files : Option (List DownloadedFile) := none)
    (warnings : Option (List String) := none)
    (errors : Option (List String) := none) : VideoResult :=
  { video_id := some video_id
    title := some title
    url := some video_url
    upload_date := upload_date
    warnings := warnings.getD []
    errors := errors.getD []
    downloaded_files := downloaded_files.getD [] }

end YTDLPHandler

/-! ## Playlist orchestration (src/video_kb_simple/downloader.py)

`SimpleDownloader._download_playlist_transcripts` (downloader.py lines
901-972) iterates the capped member list, appends exactly one `VideoResult`
per member (the per-video task's result, or — when the task raises — a
failed result with index-qualified error text), and returns a
`PlaylistResult` whose `total_requested` is the capped member count.  The
per-video task is passed as an oracle `task`; a Python exception escaping it
is an `Except.error`.  Outcomes are expressed in the models.py `VideoResult`
(the model the repository's tests and CLI read); the superseded
`success`/`error_message` fields of the VideoResult class local to
downloader.py carry no extra information for the claims and are not
modelled. -/

namespace SimpleDownloader

/-- The body of the `for i, video_url in enumerate(videos_to_process, 1)`
loop of `_download_playlist_transcripts` (downloader.py lines 935-959):
one outcome per member, the `except` branch converting an escaping
exception into a failed result. The loop consults no cancellation signal. -/
def process_videos (task : String → Except String VideoResult) :
    Nat → List String → List VideoResult
  | _, [] => []
  | i, url :: rest =>
    (match task url with
     | .ok vr => vr
     | .error e =>
       YTDLPHandler._create_failed_result url
         ("Unexpected error processing video " ++ toString i ++ ": " ++ e))
      :: process_videos task (i + 1) rest

/-- `SimpleDownloader._download_playlist_transcripts` (downloader.py lines
901-972): cap the member list when `max_videos` is set and positive, run the
loop, report the capped count as `total_requested`. -/
def _download_playlist_transcripts (task : String → Except String VideoResult)
    (playlist : PlaylistDetails) (max_videos : Option Nat) : PlaylistResult :=
  let videos_to_process : List String :=
    match max_videos with
    | some m => if 0 < m then playlist.video_urls.take m else playlist.video_urls
    | none => playlist.video_urls
  { playlist_details := some playlist
    video_results := process_videos task 1 videos_to_process
    total_requested := videos_to_process.length }

/-- `SimpleDownloader._wrap_single_video_result` (downloader.py lines
408-442): a single video's outcome wrapped as a one-member playlist
result. -/
def _wrap_single_video_result (video_result : VideoResult) (url : String) :
    PlaylistResult :=
  { playlist_details := some
      { playlist_id := video_result.video_id
        playlist_type := some .single_video
        title := some
          (match video_result.title with
           | some t => if t = "" then "Single Video" else t
           | none => "Single Video")
        url := url
        uploader := none
        video_urls := [url] }
    video_results := [video_result]
    total_requested := 1 }

end SimpleDownloader

/-! ## C1: three-way outcome classification -/

/-- C1: for every VideoResult exactly one of the three derived predicates is
true, and each is characterised exactly as the spec states: full success iff
no errors and no warnings, partial success iff no errors and some warnings,
fail iff some errors (errors dominate warnings). -/
theorem C1_outcome_classification_exclusive (vr : VideoResult) :
    (vr.is_full_success.toNat + vr.is_partial_success.toNat + vr.is_fail.toNat = 1)
    ∧ (vr.is_full_success = true ↔ vr.errors = [] ∧ vr.warnings = [])
    ∧ (vr.is_partial_success = true ↔ vr.errors = [] ∧ vr.warnings ≠ [])
    ∧ (vr.is_fail = true ↔ vr.errors ≠ []) := by
  rcases vr with ⟨vid, t, u, d, ws, es, fs⟩
  cases ws <;> cases es <;>
    simp [VideoResult.is_full_success, VideoResult.is_partial_success,
      VideoResult.is_fail]

/-! ## C2: aggregate consistency -/

/-- The three classification counts of any result list partition its
length. -/
theorem countP_classification (l : List VideoResult) :
    l.countP VideoResult.is_full_success + l.countP VideoResult.is_partial_success
      + l.countP VideoResult.is_fail = l.length := by
  induction l with
  | nil => simp
  | cons vr rest ih =>
    rcases vr with ⟨vid, t, u, d, ws, es, fs⟩
    cases ws <;> cases es <;>
      simp [List.countP_cons, VideoResult.is_full_success,
        VideoResult.is_partial_success, VideoResult.is_fail] <;>
      omega

/-- The orchestrator loop appends exactly one outcome per member
processed. -/
theorem process_videos_length (task : String → Except String VideoResult)
    (i : Nat) (urls : List String) :
    (SimpleDownloader.process_videos task i urls).length = urls.length := by
  induction urls generalizing i with
  | nil => rfl
  | cons u rest ih => simp [SimpleDownloader.process_videos, ih]

/-- C2: the sum of the three derived classification counts over
`video_results` equals `len(video_results)` for every PlaylistResult, and
both playlist-shaped constructions of a run (the playlist orchestrator and
the single-video wrapper) produce at most `total_requested` video
outcomes. -/
theorem C2_aggregate_consistency :
    (∀ pr : PlaylistResult,
      pr.success_downloads + pr.partial_success_downloads + pr.fail_downloads
        = pr.video_results.length)
    ∧ (∀ (task : String → Except String VideoResult) (playlist : PlaylistDetails)
        (max_videos : Option Nat),
        (SimpleDownloader._download_playlist_transcripts task playlist
            max_videos).video_results.length
          ≤ (SimpleDownloader._download_playlist_transcripts task playlist
            max_videos).total_requested)
    ∧ (∀ (vr : VideoResult) (url : String),
        (SimpleDownloader._wrap_single_video_result vr url).video_results.length
          ≤ (SimpleDownloader._wrap_single_video_result vr url).total_requested) := by
  refine ⟨fun pr => countP_classification pr.video_results, fun task playlist mv => ?_,
    fun vr url => ?_⟩
  · simp [SimpleDownloader._download_playlist_transcripts, process_videos_length]
  · simp [SimpleDownloader._wrap_single_video_result]

/-! ## C3: the source's orchestrator loop and cancellation

The repository's tests (src/tests/test_signal_handling.py) and CLI
(src/video_kb_simple/cli.py) drive a `SimpleDownloader` that takes a
`shutdown_check` hook and whose playlist loop checks it before every
per-video task; the `SimpleDownloader` in src/video_kb_simple/downloader.py
accepts no such hook and its loop (lines 935-959, embedded above as
`process_videos`) consults no cancellation signal, so it always produces
one outcome per capped member. The concrete scenario below is the one the
tests assert (5 members, stop after 2): the code in src/ yields 5 outcomes
where the tests demand 2. -/

/-- The per-video outcome the cancellation test mocks
(test_signal_handling.py lines 279-286). -/
def c3_ok_result : VideoResult :=
  { video_id := some "test1"
    title := some "Test Video"
    url := some "https://youtube.com/watch?v=test1" }

/-- The 5-member playlist of the cancellation test
(test_signal_handling.py lines 269-276). -/
def c3_playlist : PlaylistDetails :=
  { playlist_id := some "test_playlist"
    playlist_type := some .playlist
    title := some "Test Playlist"
    url := "https://youtube.com/playlist?list=test"
    video_urls := ["https://youtube.com/watch?v=test1",
      "https://youtube.com/watch?v=test2", "https://youtube.com/watch?v=test3",
      "https://youtube.com/watch?v=test4", "https://youtube.com/watch?v=test5"] }

/-- C3: evaluating src/video_kb_simple/downloader.py's playlist loop on the
claim's 5-member scenario: it produces 5 video outcomes, not the 2 the claim
(and the repository's own test suite) requires, because the loop never
consults a cancellation signal — the hook cannot even be supplied to this
class. -/
theorem C3_src_loop_processes_all_five :
    (SimpleDownloader._download_playlist_transcripts (fun _ => .ok c3_ok_result)
        c3_playlist (some 5)).video_results.length = 5
    ∧ (SimpleDownloader._download_playlist_transcripts (fun _ => .ok c3_ok_result)
        c3_playlist (some 5)).total_requested = 5 := ⟨rfl, rfl⟩

/-! ## Substring search and the file renamer
(src/video_kb_simple/ytdlp_handler.py lines 240-294; the same code is
downloader.py lines 467-530) -/

/-- Python's `str.find`: the first index at which `pat` occurs as a
contiguous substring, `none` when it does not occur (the source only calls
`find` after an `in` guard). `find` of the empty pattern is 0, as in
Python. -/
def findSub (pat : List Char) : List Char → Option Nat
  | [] => if pat.isPrefixOf [] then some 0 else none
  | c :: t =>
    if pat.isPrefixOf (c :: t) then some 0 else (findSub pat t).map (· + 1)

/-- Python's `pat in s` substring test. -/
def containsSub (pat s : List Char) : Bool :=
  (findSub pat s).isSome

/-- `findSub` finds the least index at which the pattern is a prefix of the
rest of the string. -/
theorem findSub_eq_some_iff (pat : List Char) :
    ∀ (s : List Char) (p : Nat), findSub pat s = some p ↔
      (pat <+: s.drop p ∧ ∀ q < p, ¬ pat <+: s.drop q) := by
  intro s
  induction s with
  | nil =>
    intro p
    by_cases h : pat <+: ([] : List Char)
    · rw [findSub, if_pos (List.isPrefixOf_iff_prefix.mpr h)]
      cases p with
      | zero => simpa using h
      | succ p' =>
        simp only [List.drop_nil]
        constructor
        · intro h0; exact absurd h0 (by simp)
        · rintro ⟨-, hq⟩
          exact absurd h (hq 0 (Nat.succ_pos p'))
    · rw [findSub, if_neg (fun hb => h (List.isPrefixOf_iff_prefix.mp hb))]
      simp only [List.drop_nil]
      constructor
      · intro h0; exact absurd h0 (by simp)
      · rintro ⟨h1, -⟩; exact absurd h1 h
  | cons c t ih =>
    intro p
    by_cases h : pat <+: (c :: t)
    · rw [findSub, if_pos (List.isPrefixOf_iff_prefix.mpr h)]
      cases p with
      | zero =>
        simpa using h
      | succ p' =>
        constructor
        · intro h0; exact absurd h0 (by simp)
        · rintro ⟨-, hq⟩
          exact absurd h (by simpa using hq 0 (Nat.succ_pos p'))
    · rw [findSub, if_neg (fun hb => h (List.isPrefixOf_iff_prefix.mp hb))]
      cases p with
      | zero =>
        simp only [List.drop_zero]
        constructor
        · intro hmap
          exfalso
          rcases hopt : findSub pat t with _ | a <;> simp [hopt] at hmap
        · rintro ⟨h1, -⟩
          exact absurd h1 h
      | succ p' =>
        constructor
        · intro hmap
          have hstep : ∃ a, findSub pat t = some a ∧ a + 1 = p' + 1 := by
            rcases hopt : findSub pat t with _ | a
            · simp [hopt] at hmap
            · simp only [hopt, Option.map_some] at hmap
              exact ⟨a, rfl, by simpa using hmap⟩
          obtain ⟨a, hfind, ha⟩ := hstep
          have ha' : a = p' := by omega
          rw [ha'] at hfind
          obtain ⟨h1, h2⟩ := (ih p').mp hfind
          refine ⟨by simpa using h1, ?_⟩
          intro q hq
          cases q with
          | zero => simpa using h
          | succ q' => simpa using h2 q' (by omega)
        · rintro ⟨h1, h2⟩
          have hfind : findSub pat t = some p' := by
            apply (ih p').mpr
            refine ⟨by simpa using h1, ?_⟩
            intro q hq
            simpa using h2 (q + 1) (by omega)
          simp [hfind]

/-- An index found by `findSub` lies within the string. -/
theorem findSub_le_length (pat : List Char) :
    ∀ (name : List Char) (p : Nat), findSub pat name = some p → p ≤ name.length := by
  intro name
  induction name with
  | nil =>
    intro p h
    by_cases hp : pat.isPrefixOf ([] : List Char) = true
    · simp [findSub, hp] at h; omega
    · simp [findSub, hp] at h
  | cons c t ih =>
    intro p h
    by_cases hp : pat.isPrefixOf (c :: t) = true
    · simp [findSub, hp] at h; omega
    · simp only [findSub, hp, if_false] at h
      rcases hopt : findSub pat t with _ | a
      · simp [hopt] at h
      · simp [hopt] at h
        have := ih a hopt
        simp only [List.length_cons]
        omega

/-- A string with an occurrence of the pattern splits around that
occurrence. -/
theorem findSub_decomp (pat name : List Char) (p : Nat)
    (h : findSub pat name = some p) :
    name = name.take p ++ pat ++ name.drop (p + pat.length) := by
  obtain ⟨hpre, -⟩ := (findSub_eq_some_iff pat name p).mp h
  have htake : pat = (name.drop p).take pat.length :=
    List.prefix_iff_eq_take.mp hpre
  calc name = name.take p ++ name.drop p := (List.take_append_drop p name).symm
    _ = name.take p ++ ((name.drop p).take pat.length
          ++ (name.drop p).drop pat.length) := by
          rw [List.take_append_drop pat.length (name.drop p)]
    _ = name.take p ++ (pat ++ name.drop (p + pat.length)) := by
          rw [← htake, List.drop_drop, Nat.add_comm]
    _ = name.take p ++ pat ++ name.drop (p + pat.length) := by
          rw [List.append_assoc]

/-- Whether the pattern is a prefix at an index inside the shared block
`A` does not depend on what follows `A`. -/
theorem prefix_drop_append_iff (pat A X Y : List Char) (q : Nat)
    (h : q + pat.length ≤ A.length) :
    (pat <+: (A ++ X).drop q) ↔ (pat <+: (A ++ Y).drop q) := by
  have hq : q ≤ A.length := by omega
  have hlen : pat.length ≤ (A.drop q).length := by
    simp only [List.length_drop]; omega
  have key : ∀ Z : List Char,
      (pat <+: (A ++ Z).drop q) ↔ pat = (A.drop q).take pat.length := by
    intro Z
    rw [List.drop_append_of_le_length hq, List.prefix_iff_eq_take,
      List.take_append_of_le_length hlen]
  rw [key X, key Y]

/-- Inserting `_<slug>` right after the found occurrence of the pattern does
not move the first occurrence: the renamed file's name still has the
pattern first occurring at the same index, now followed by `_`. -/
theorem findSub_insert_slug (pat pre post slug : List Char)
    (h : findSub pat (pre ++ pat ++ post) = some pre.length) :
    findSub pat (pre ++ pat ++ ('_' :: (slug ++ post))) = some pre.length := by
  obtain ⟨-, h2⟩ := (findSub_eq_some_iff pat (pre ++ pat ++ post) pre.length).mp h
  apply (findSub_eq_some_iff pat _ pre.length).mpr
  constructor
  · have hdrop : (pre ++ pat ++ ('_' :: (slug ++ post))).drop pre.length
        = pat ++ ('_' :: (slug ++ post)) := by
      rw [List.append_assoc, List.drop_left]
    rw [hdrop]
    exact List.prefix_append pat _
  · intro q hq
    have hw : q + pat.length ≤ (pre ++ pat).length := by
      simp only [List.length_append]; omega
    intro hcon
    exact h2 q hq
      ((prefix_drop_append_iff pat (pre ++ pat) ('_' :: (slug ++ post)) post
        q hw).mp hcon)

/-- Python `str.startswith` for the single-character markers the renamer
tests (`"."` and `"_"`). -/
def headIs (c : Char) : List Char → Bool
  | [] => false
  | d :: _ => d = c

/-- One iteration of the rename loop of `_rename_files_with_slug`
(ytdlp_handler.py lines 246-292): locate the first occurrence of the video
id in the filename; if it is followed by `.`, rename by inserting `_<slug>`
after the id; if followed by `_`, the file is already slugged and is
returned as-is; any other following character (or the id being absent)
leaves the file unrenamed (the source only logs differently in those two
cases). The real filesystem rename is modelled by the oracle `rename_ok`, a
function of the target name: `true` is a successful `Path.rename` into the
output directory, `false` the `OSError` branch that logs a warning and
keeps the original path. -/
def rename_one (output_dir : String) (rename_ok : List Char → Bool)
    (video_id slug : List Char) (f : DownloadedFile) : DownloadedFile :=
  let original_name := f.path.fname
  match findSub video_id original_name with
  | none => f
  | some p =>
    let before_video_id := original_name.take p
    let after_video_id := original_name.drop (p + video_id.length)
    if headIs '.' after_video_id then
      let new_name := before_video_id ++ video_id ++ ('_' :: (slug ++ after_video_id))
      if rename_ok new_name then
        { f with path := { dir := output_dir, fname := new_name } }
      else f
    else if headIs '_' after_video_id then
      f
    else
      f

/-- `YTDLPHandler._rename_files_with_slug` (ytdlp_handler.py lines 240-294):
the rename loop over the scanned files, one updated `DownloadedFile` per
input file, in order. -/
def _rename_files_with_slug (output_dir : String) (rename_ok : List Char → Bool)
    (files : List DownloadedFile) (video_id slug : List Char) :
    List DownloadedFile :=
  files.map (rename_one output_dir rename_ok video_id slug)

/-- A single file's rename is idempotent: a renamed file's name has the
video id followed by `_`, which the second pass skips; an unrenamed file
takes the same branch again. -/
theorem rename_one_idem (output_dir : String) (rename_ok : List Char → Bool)
    (video_id slug : List Char) (f : DownloadedFile) :
    rename_one output_dir rename_ok video_id slug
      (rename_one output_dir rename_ok video_id slug f)
      = rename_one output_dir rename_ok video_id slug f := by
  rcases hfind : findSub video_id f.path.fname with _ | p
  · have hsame : rename_one output_dir rename_ok video_id slug f = f := by
      simp only [rename_one, hfind]
    rw [hsame]
    exact hsame
  · have hple := findSub_le_length video_id f.path.fname p hfind
    by_cases hdot : headIs '.' (f.path.fname.drop (p + video_id.length)) = true
    · by_cases hok : rename_ok (f.path.fname.take p ++ video_id
          ++ ('_' :: (slug ++ f.path.fname.drop (p + video_id.length)))) = true
      · have hp : (f.path.fname.take p).length = p := by
          simp only [List.length_take]; omega
        have hname := findSub_decomp video_id f.path.fname p hfind
        have hfind' : findSub video_id (f.path.fname.take p ++ video_id
            ++ f.path.fname.drop (p + video_id.length))
            = some (f.path.fname.take p).length := by
          rw [← hname, hp]; exact hfind
        have hnew := findSub_insert_slug video_id (f.path.fname.take p)
          (f.path.fname.drop (p + video_id.length)) slug hfind'
        have hdrop : (f.path.fname.take p ++ video_id
            ++ ('_' :: (slug ++ f.path.fname.drop (p + video_id.length)))).drop
              ((f.path.fname.take p).length + video_id.length)
            = '_' :: (slug ++ f.path.fname.drop (p + video_id.length)) := by
          rw [show (f.path.fname.take p).length + video_id.length
              = (f.path.fname.take p ++ video_id).length by simp]
          exact List.drop_left _ _
        have hfirst : rename_one output_dir rename_ok video_id slug f
            = { f with path := ⟨output_dir, f.path.fname.take p ++ video_id
                  ++ ('_' :: (slug ++ f.path.fname.drop (p + video_id.length)))⟩ } := by
          simp only [rename_one, hfind]
          rw [if_pos hdot, if_pos hok]
        rw [hfirst]
        simp only [rename_one, hnew, hdrop]
        simp [headIs]
      · have hsame : rename_one output_dir rename_ok video_id slug f = f := by
          simp only [rename_one, hfind]
          rw [if_pos hdot, if_neg hok]
        rw [hsame]
        exact hsame
    · have hsame : rename_one output_dir rename_ok video_id slug f = f := by
        simp only [rename_one, hfind]
        rw [if_neg hdot]
        exact ite_self f
      rw [hsame]
      exact hsame

/-! ## C5: the renamer is idempotent -/

/-- C5: applying the renamer a second time to the output of the first
application yields exactly the same file list — renamed files carry the
id-then-`_` pattern and are skipped, files skipped the first time are
skipped again for the same reason. Quantified over every rename-success
oracle, so the conclusion also covers files whose filesystem rename
failed. -/
theorem C5_rename_files_with_slug_idempotent (output_dir : String)
    (rename_ok : List Char → Bool) (files : List DownloadedFile)
    (video_id slug : List Char) :
    _rename_files_with_slug output_dir rename_ok
      (_rename_files_with_slug output_dir rename_ok files video_id slug)
      video_id slug
      = _rename_files_with_slug output_dir rename_ok files video_id slug := by
  unfold _rename_files_with_slug
  rw [List.map_map]
  exact List.map_congr_left fun f _ => by
    simp only [Function.comp_apply]
    exact rename_one_idem output_dir rename_ok video_id slug f

/-! ## File identity scanning
(src/video_kb_simple/utils.py lines 15-39, ytdlp_handler.py lines 217-238) -/

/-- `SUBTITLE_EXTENSIONS` (utils.py line 16). -/
def SUBTITLE_EXTENSIONS : List (List Char) :=
  [".vtt".toList, ".srt".toList, ".ass".toList]

/-- `METADATA_EXTENSION` (utils.py line 17). -/
def METADATA_EXTENSION : List Char := ".json".toList

/-- `FILE_TYPE_SUBTITLE` (utils.py line 18). -/
def FILE_TYPE_SUBTITLE : String := "subtitle"

/-- `FILE_TYPE_METADATA` (utils.py line 19). -/
def FILE_TYPE_METADATA : String := "metadata"

/-- `FILE_TYPE_UNKNOWN` (utils.py line 20). -/
def FILE_TYPE_UNKNOWN : String := "unknown"

/-- Python `str.rfind('.')`: index of the last dot, `none` when absent. -/
def rfindDotAux : List Char → Nat → Option Nat
  | [], _ => none
  | c :: t, i =>
    match rfindDotAux t (i + 1) with
    | some j => some j
    | none => if c = '.' then some i else none

/-- Index of the last `.` of a filename. -/
def rfindDot (name : List Char) : Option Nat := rfindDotAux name 0

/-- pathlib's `PurePath.suffix`: the part from the last dot on, but empty
when that dot is the first or the last character of the name. -/
def pathSuffix (name : List Char) : List Char :=
  match rfindDot name with
  | some i => if 0 < i ∧ i < name.length - 1 then name.drop i else []
  | none => []

/-- pathlib's `PurePath.stem`: the name without its suffix. -/
def pathStem (name : List Char) : List Char :=
  match rfindDot name with
  | some i => if 0 < i ∧ i < name.length - 1 then name.take i else name
  | none => name

/-- Python `str.split('.')`: never empty, empty segments kept. -/
def splitDot : List Char → List (List Char)
  | [] => [[]]
  | c :: t =>
    if c = '.' then [] :: splitDot t
    else
      match splitDot t with
      | [] => [[c]]
      | seg :: rest => (c :: seg) :: rest

/-- `detect_file_type_and_language` (utils.py lines 30-39): metadata by the
fixed metadata extension, subtitle by the fixed subtitle-extension set with
the language read from the last dot-separated segment of the stem (at least
two segments needed, else `"unknown"`), anything else unknown. -/
def detect_file_type_and_language (name : List Char) : String × Option String :=
  if pathSuffix name = METADATA_EXTENSION then
    (FILE_TYPE_METADATA, none)
  else if SUBTITLE_EXTENSIONS.contains (pathSuffix name) then
    let parts := splitDot (pathStem name)
    let language :=
      if 2 ≤ parts.length then String.mk (parts.getLastD []) else "unknown"
    (FILE_TYPE_SUBTITLE, some language)
  else
    (FILE_TYPE_UNKNOWN, none)

/-- One directory entry of the output directory as the scanner's glob sees
it: its name, whether it is a regular file, and its best-effort size
(`none` models the `OSError` branch of `stat`). -/
structure FSEntry where
  fname : List Char
  is_file : Bool
  size_bytes : Option Nat
deriving DecidableEq

namespace YTDLPHandler

/-- `YTDLPHandler._create_downloaded_file` (ytdlp_handler.py lines
228-238). -/
def _create_downloaded_file (output_dir : String) (e : FSEntry) :
    DownloadedFile :=
  let fl := detect_file_type_and_language e.fname
  { path := ⟨output_dir, e.fname⟩
    file_type := fl.1
    language := fl.2
    size_bytes := e.size_bytes }

/-- `YTDLPHandler._scan_downloaded_files` (ytdlp_handler.py lines 217-226):
empty when the output directory does not yet exist; otherwise the entries
matched by the glob `*<video_id>*` (name contains the id as a substring)
that are regular files, classified by `_create_downloaded_file`. The
filesystem is the oracle pair `dir_exists`/`entries`. -/
def _scan_downloaded_files (output_dir : String) (dir_exists : Bool)
    (entries : List FSEntry) (video_id : List Char) : List DownloadedFile :=
  if !dir_exists then []
  else
    ((entries.filter (fun e => containsSub video_id e.fname)).filter
        (fun e => e.is_file)).map (_create_downloaded_file output_dir)

end YTDLPHandler

/-! ## C9: scanner classification -/

/-- C9: the scan of a missing output directory is empty (not an error), and
every scanned file is classified by extension exactly as the claim states:
the metadata extension gives `metadata` with no language; a subtitle
extension gives `subtitle` with the language equal to the last
dot-separated segment of the stem when the stem has at least two segments
and `"unknown"` otherwise; any other extension gives `unknown` with no
language. -/
theorem C9_scanner_classification :
    (∀ (output_dir : String) (entries : List FSEntry) (video_id : List Char),
      YTDLPHandler._scan_downloaded_files output_dir false entries video_id = [])
    ∧ (∀ name : List Char,
        (pathSuffix name = METADATA_EXTENSION →
          detect_file_type_and_language name = (FILE_TYPE_METADATA, none))
        ∧ (pathSuffix name ≠ METADATA_EXTENSION →
            SUBTITLE_EXTENSIONS.contains (pathSuffix name) = true →
            detect_file_type_and_language name = (FILE_TYPE_SUBTITLE,
              some (if 2 ≤ (splitDot (pathStem name)).length
                then String.mk ((splitDot (pathStem name)).getLastD [])
                else "unknown")))
        ∧ (pathSuffix name ≠ METADATA_EXTENSION →
            SUBTITLE_EXTENSIONS.contains (pathSuffix name) = false →
            detect_file_type_and_language name = (FILE_TYPE_UNKNOWN, none)))
    ∧ (∀ (output_dir : String) (entries : List FSEntry) (video_id : List Char)
        (f : DownloadedFile),
        f ∈ YTDLPHandler._scan_downloaded_files output_dir true entries video_id →
          (f.file_type, f.language) = detect_file_type_and_language f.path.fname) := by
  refine ⟨fun _ _ _ => rfl, fun name => ⟨?_, ?_, ?_⟩, ?_⟩
  · intro h
    simp [detect_file_type_and_language, h]
  · intro h1 h2
    have h2' : pathSuffix name ∈ SUBTITLE_EXTENSIONS := by simpa using h2
    simp [detect_file_type_and_language, h1, h2']
  · intro h1 h2
    have h2' : pathSuffix name ∉ SUBTITLE_EXTENSIONS := by simpa using h2
    simp [detect_file_type_and_language, h1, h2']
  · intro output_dir entries video_id f hf
    simp only [YTDLPHandler._scan_downloaded_files, Bool.not_true,
      Bool.false_eq_true, if_false, List.mem_map] at hf
    obtain ⟨e, -, rfl⟩ := hf
    simp [YTDLPHandler._create_downloaded_file]

/-! ## Cancellation and the handler's per-video download
(src/video_kb_simple/ytdlp_handler.py lines 65-72 and 296-387) -/

namespace YTDLPHandler

/-- `YTDLPHandler._is_shutdown_requested` (ytdlp_handler.py lines 65-72).
One query of the externally supplied hook: `none` is no callback,
`some (.ok b)` a callback returning `b` (through `bool(...)`),
`some (.error e)` a callback raising — the `except Exception: return False`
branch swallows it. -/
def _is_shutdown_requested (shutdown_check : Option (Except String Bool)) :
    Bool :=
  match shutdown_check with
  | none => false
  | some (.ok b) => b
  | some (.error _) => false

/-- The fields of the extractor's `video_info` dict that the download path
reads (`title`, `upload_date`, `id`); `none` models a missing key. -/
structure ExtractInfo where
  title : Option String := none
  upload_date : Option String := none
  id : Option String := none

/-- The outcome of the one `extract_info(video_url, download=True)` call: a
result dict (`none` for a falsy one), a `DownloadError`/`ExtractorError`,
or any other exception. -/
inductive ExtractOutcome where
  | ok (info : Option ExtractInfo)
  | download_error (msg : String)
  | unexpected_error (msg : String)

/-- `YTDLPHandler.download_video_transcripts` (ytdlp_handler.py lines
296-387). The extractor call is the oracle `extract`; the second component
counts how many times the extractor was invoked. The capturing logger's
state after the call is the pair `captured_warnings`/`captured_errors`;
`slugify` stands for the external slugify library; the scanned directory
and rename calls are wired to the scanner and renamer above. The sleeps
and console logging have no observable effect on the result and are not
modelled. -/
def download_video_transcripts (shutdown_check : Option (Except String Bool))
    (output_dir : String) (dir_exists : Bool) (entries : List FSEntry)
    (slugify : String → String) (rename_ok : List Char → Bool)
    (video_url video_id : String) (subtitle_languages : List String)
    (extract : ExtractOutcome)
    (captured_warnings captured_errors : List String) : VideoResult × Nat :=
  if _is_shutdown_requested shutdown_check then
    (_create_failed_result video_url "Download cancelled by user"
      (some video_id), 0)
  else
    match extract with
    | .download_error e =>
      (_create_failed_result video_url ("Failed to download transcripts: " ++ e)
        (some video_id) none none (some captured_warnings)
        (some captured_errors), 1)
    | .unexpected_error e =>
      (_create_failed_result video_url ("Unexpected error during download: " ++ e)
        (some video_id) none none (some captured_warnings)
        (some captured_errors), 1)
    | .ok none =>
      (_create_failed_result video_url "Could not extract video information"
        (some video_id) none none (some captured_warnings)
        (some captured_errors), 1)
    | .ok (some info) =>
      let title := info.title.getD "Unknown Title"
      let actual_video_id := info.id.getD video_id
      let title_slug := if title = "" then "unknown" else slugify title
      let downloaded_files := _rename_files_with_slug output_dir rename_ok
        (_scan_downloaded_files output_dir dir_exists entries
          actual_video_id.toList)
        actual_video_id.toList title_slug.toList
      (_create_success_result actual_video_id title video_url info.upload_date
        (some downloaded_files) (some captured_warnings)
        (some captured_errors), 1)

end YTDLPHandler

/-! ## C6: cancellation short-circuit and hook resilience -/

/-- C6: when the hook reports true at the check made before the extractor
call, the task returns a fail outcome whose single error states
cancellation and the extractor is invoked zero times; a hook that raises is
treated as not cancelled — the task behaves exactly as with no hook, and no
exception escapes (the embedding is total). -/
theorem C6_cancellation_and_hook_resilience (output_dir : String)
    (dir_exists : Bool) (entries : List FSEntry) (slugify : String → String)
    (rename_ok : List Char → Bool) (video_url video_id : String)
    (subtitle_languages : List String) (extract : YTDLPHandler.ExtractOutcome)
    (captured_warnings captured_errors : List String) :
    ((YTDLPHandler.download_video_transcripts (some (.ok true)) output_dir
        dir_exists entries slugify rename_ok video_url video_id
        subtitle_languages extract captured_warnings captured_errors).2 = 0
      ∧ (YTDLPHandler.download_video_transcripts (some (.ok true)) output_dir
          dir_exists entries slugify rename_ok video_url video_id
          subtitle_languages extract captured_warnings
          captured_errors).1.errors = ["Download cancelled by user"]
      ∧ (YTDLPHandler.download_video_transcripts (some (.ok true)) output_dir
          dir_exists entries slugify rename_ok video_url video_id
          subtitle_languages extract captured_warnings
          captured_errors).1.is_fail = true)
    ∧ (∀ e : String, YTDLPHandler._is_shutdown_requested (some (.error e)) = false
        ∧ YTDLPHandler.download_video_transcripts (some (.error e)) output_dir
            dir_exists entries slugify rename_ok video_url video_id
            subtitle_languages extract captured_warnings captured_errors
          = YTDLPHandler.download_video_transcripts none output_dir dir_exists
            entries slugify rename_ok video_url video_id subtitle_languages
            extract captured_warnings captured_errors) := by
  refine ⟨⟨rfl, rfl, rfl⟩, fun e => ⟨rfl, rfl⟩⟩

/-! ## The per-video skip-check
(src/video_kb_simple/downloader.py lines 532-588, 719-750, 870-899) -/

namespace SimpleDownloader

/-- `SimpleDownloader._get_downloaded_languages` (downloader.py lines
575-588): the language codes of subtitle files with a truthy
language (Python's `if file.language` also rejects the empty string). The
Python set is modelled as the list of its members in scan order; only
membership is ever consulted. -/
def _get_downloaded_languages (downloaded_files : List DownloadedFile) :
    List String :=
  downloaded_files.filterMap fun file =>
    match file.language with
    | some l => if file.file_type = FILE_TYPE_SUBTITLE ∧ l ≠ "" then some l else none
    | none => none

/-- `SimpleDownloader._handle_existing_download` (downloader.py lines
719-750): skip entirely when every requested language is already
downloaded, otherwise narrow the request to the missing languages. -/
def _handle_existing_download (existing_result : VideoResult)
    (subtitle_languages : List String) : Option VideoResult × List String :=
  let downloaded_languages :=
    _get_downloaded_languages existing_result.downloaded_files
  let remaining_languages := subtitle_languages.filter
    (fun lang => !downloaded_languages.contains lang)
  if remaining_languages = [] then (some existing_result, subtitle_languages)
  else (none, remaining_languages)

/-- The `VideoResult` that `SimpleDownloader._check_existing_download`
(downloader.py lines 532-573) returns when the existing metadata JSON
parses: descriptive fields read from the metadata, the scanned files, and
empty warning/error lists (it calls `_create_success_result` with neither
warnings nor errors). -/
def _check_existing_download_result (video_id title : String)
    (upload_date url : Option String) (existing_files : List DownloadedFile) :
    VideoResult :=
  { video_id := some video_id
    title := some title
    url := url
    upload_date := upload_date
    warnings := []
    errors := []
    downloaded_files := existing_files }

/-- `SimpleDownloader._download_video_transcripts` (downloader.py lines
870-899): fail without any extractor call when no video id can be
extracted; otherwise consult the existing-download check (its parsed result
is the parameter `existing_result`, `none` when there is no usable existing
download or parsing failed) unless the force flag is set, then either
return the existing state or download the (possibly narrowed) language set.
The extractor call `_perform_video_download` is the oracle `perform`; the
second component records the language scope of every extractor invocation
made. The failed result is expressed through the models.py constructor
semantics (`errors = [message]`). -/
def _download_video_transcripts (force_download : Bool)
    (video_id : Option String) (existing_result : Option VideoResult)
    (subtitle_languages : List String)
    (perform : List String → VideoResult) (video_url : String) :
    VideoResult × List (List String) :=
  match video_id with
  | none =>
    (YTDLPHandler._create_failed_result video_url "Could not extract video ID", [])
  | some _ =>
    match existing_result, force_download with
    | some er, false =>
      match _handle_existing_download er subtitle_languages with
      | (some result, _) => (result, [])
      | (none, updated) => (perform updated, [updated])
    | _, _ => (perform subtitle_languages, [subtitle_languages])

end SimpleDownloader

/-! ## C4: skip-check completeness -/

/-- C4: with the force flag unset and the existing metadata parsed, a
request whose languages are all present among the existing subtitle files
returns the existing state as a full-success outcome with zero extractor
invocations, and a request with missing languages makes exactly one
extractor invocation scoped to exactly the missing languages (in request
order). -/
theorem C4_skip_check (er : VideoResult) (video_id title : String)
    (upload_date url : Option String) (existing_files : List DownloadedFile)
    (her : er = SimpleDownloader._check_existing_download_result video_id title
      upload_date url existing_files)
    (subtitle_languages : List String) (perform : List String → VideoResult)
    (video_url : String) :
    ((∀ l ∈ subtitle_languages,
        l ∈ SimpleDownloader._get_downloaded_languages existing_files) →
      SimpleDownloader._download_video_transcripts false (some video_id)
          (some er) subtitle_languages perform video_url = (er, [])
        ∧ er.is_full_success = true)
    ∧ ((¬ ∀ l ∈ subtitle_languages,
          l ∈ SimpleDownloader._get_downloaded_languages existing_files) →
        SimpleDownloader._download_video_transcripts false (some video_id)
            (some er) subtitle_languages perform video_url
          = (perform (subtitle_languages.filter (fun lang =>
              !(SimpleDownloader._get_downloaded_languages
                existing_files).contains lang)),
             [subtitle_languages.filter (fun lang =>
              !(SimpleDownloader._get_downloaded_languages
                existing_files).contains lang)])) := by
  subst her
  constructor
  · intro hall
    have hrem : subtitle_languages.filter (fun lang =>
        !(SimpleDownloader._get_downloaded_languages existing_files).contains
          lang) = [] := by
      rw [List.filter_eq_nil_iff]
      intro a ha
      simpa using hall a ha
    refine ⟨?_, rfl⟩
    simp only [SimpleDownloader._download_video_transcripts,
      SimpleDownloader._handle_existing_download,
      SimpleDownloader._check_existing_download_result]
    rw [if_pos hrem]
  · intro hmiss
    have hrem : subtitle_languages.filter (fun lang =>
        !(SimpleDownloader._get_downloaded_languages existing_files).contains
          lang) ≠ [] := by
      intro hnil
      apply hmiss
      intro a ha
      have := List.filter_eq_nil_iff.mp hnil a ha
      simpa using this
    simp only [SimpleDownloader._download_video_transcripts,
      SimpleDownloader._handle_existing_download,
      SimpleDownloader._check_existing_download_result]
    rw [if_neg hrem]

/-- The spec's concrete skip-check example: one existing English subtitle
file. -/
def c4_en_file : DownloadedFile :=
  { path := ⟨"transcripts", "2024-01-01_abc.en.vtt".toList⟩
    file_type := FILE_TYPE_SUBTITLE
    language := some "en"
    size_bytes := some 10 }

/-- The existing full outcome of the skip-check example. -/
def c4_existing : VideoResult :=
  SimpleDownloader._check_existing_download_result "abc" "T" none none
    [c4_en_file]

/-- An arbitrary concrete extractor stand-in for the skip-check example. -/
def c4_perform : List String → VideoResult := fun _ =>
  { video_id := some "abc" }

/-- Witness for C4 at the spec's example: downloaded languages `{"en"}`,
requesting `["en"]` again skips with zero extractor invocations, requesting
`["en", "es"]` makes exactly one invocation scoped to `["es"]`. -/
theorem C4_skip_check_witness :
    (SimpleDownloader._download_video_transcripts false (some "abc")
        (some c4_existing) ["en"] c4_perform "u" = (c4_existing, [])
      ∧ c4_existing.is_full_success = true)
    ∧ SimpleDownloader._download_video_transcripts false (some "abc")
        (some c4_existing) ["en", "es"] c4_perform "u"
      = (c4_perform ["es"], [["es"]]) := by
  constructor
  · exact (C4_skip_check c4_existing "abc" "T" none none [c4_en_file] rfl
      ["en"] c4_perform "u").1 (by decide)
  · have h := (C4_skip_check c4_existing "abc" "T" none none [c4_en_file] rfl
      ["en", "es"] c4_perform "u").2 (by decide)
    have hfil : (["en", "es"] : List String).filter (fun lang =>
        !(SimpleDownloader._get_downloaded_languages [c4_en_file]).contains
          lang) = ["es"] := by decide
    rw [hfil] at h
    exact h

/-! ## URL classification (src/video_kb_simple/utils.py lines 8-80) -/

/-- Strip a literal prefix, the building block of the anchored parts of the
source's regular expressions. -/
def dropLit : List Char → List Char → Option (List Char)
  | [], s => some s
  | _ :: _, [] => none
  | c :: p, d :: s => if c = d then dropLit p s else none

/-- The regex class `\w` of `YOUTUBE_CHANNEL_URL_PATTERN` (utils.py line
13), modelled over ASCII: letters, digits and underscore. (Python's `\w`
also admits non-ASCII word characters; the URLs the claims concern are
ASCII.) -/
def isWordChar (c : Char) : Bool :=
  c.isAlphanum || c = '_'

/-- The regex class `[a-zA-Z0-9_-]` of the video-id captures (utils.py
lines 8-11). -/
def isIdChar (c : Char) : Bool :=
  c.isAlphanum || c = '_' || c = '-'

/-- `https?://` with the regex's backtracking: try the `s` first, fall back
to the bare scheme. -/
def afterScheme (s : List Char) : Option (List Char) :=
  match dropLit "http".toList s with
  | none => none
  | some r =>
    match dropLit "s://".toList r with
    | some r2 => some r2
    | none => dropLit "://".toList r

/-- `re.match(YOUTUBE_CHANNEL_URL_PATTERN, url)` (utils.py lines 13, 58):
`https?://(?:www\.)?youtube\.com/@[\w-]+/?$`, anchored at both ends. The
`$` is modelled as end-of-string (Python's `$` would also accept one
trailing newline). -/
def matchChannel (url : List Char) : Bool :=
  match afterScheme url with
  | none => false
  | some r =>
    let tail :=
      match dropLit "www.".toList r with
      | some r2 =>
        match dropLit "youtube.com/@".toList r2 with
        | some t => some t
        | none => dropLit "youtube.com/@".toList r
      | none => dropLit "youtube.com/@".toList r
    match tail with
    | none => false
    | some t =>
      let run := t.takeWhile (fun c => isWordChar c || c = '-')
      let rest := t.dropWhile (fun c => isWordChar c || c = '-')
      !run.isEmpty && (rest.isEmpty || rest = ['/'])

/-- Whether one of the host/path alternatives followed by an 11-character
video id matches at this point. -/
def matchAltsId (alts : List String) (x : List Char) : Bool :=
  alts.any fun a =>
    match dropLit a.toList x with
    | some rest => (rest.take 11).length = 11 && (rest.take 11).all isIdChar
    | none => false

/-- One of `YOUTUBE_VIDEO_URL_PATTERNS` (utils.py lines 8-11) matching at
the start of `s`: scheme, optional `www.` (with backtracking), one of the
given alternatives, 11 id characters. -/
def matchVideoAt (alts : List String) (s : List Char) : Bool :=
  match afterScheme s with
  | none => false
  | some r =>
    match dropLit "www.".toList r with
    | some r2 => matchAltsId alts r2 || matchAltsId alts r
    | none => matchAltsId alts r

/-- `re.search`: try every start position, left to right. -/
def anySuffix (p : List Char → Bool) : List Char → Bool
  | [] => p []
  | c :: t => p (c :: t) || anySuffix p t

/-- The alternatives of the first video pattern (utils.py line 9). -/
def videoAlts1 : List String :=
  ["youtube.com/watch?v=", "youtu.be/", "youtube.com/embed/"]

/-- The alternative of the second video pattern (utils.py line 10). -/
def videoAlts2 : List String := ["youtube.com/v/"]

/-- `re.search` over both `YOUTUBE_VIDEO_URL_PATTERNS` (the loop of
utils.py lines 71-73 only needs whether any pattern matches). -/
def videoPatternFound (url : List Char) : Bool :=
  anySuffix (matchVideoAt videoAlts1) url
    || anySuffix (matchVideoAt videoAlts2) url

/-- Python `url.rstrip("/")`: drop every trailing slash. -/
def rstripSlashes (url : List Char) : List Char :=
  (url.reverse.dropWhile (fun c => c = '/')).reverse

/-- `normalize_playlist_url` (utils.py lines 51-80): channel handle first,
then the path/query markers in fixed priority order, then the single-video
patterns, else `URLNormalizationError` (modelled as `Except.error` with the
source's message). -/
def normalize_playlist_url (url : List Char) :
    Except String (List Char × PlaylistType) :=
  if matchChannel url then
    .ok (rstripSlashes url ++ "/videos".toList, .channel_videos)
  else if containsSub "/videos".toList url then
    .ok (url, .channel_videos)
  else if containsSub "/shorts".toList url then
    .ok (url, .channel_shorts)
  else if containsSub "/streams".toList url || containsSub "/live".toList url then
    .ok (url, .channel_live)
  else if containsSub "playlist?list=".toList url then
    .ok (url, .playlist)
  else if videoPatternFound url then
    .ok (url, .single_video)
  else
    .error ("Unable to normalize the playlist url: " ++ String.mk url)

/-! ## C7: classification priority and the error condition -/

/-- C7: the classifier handles a bare channel-handle URL first (rewriting
with the `/videos` suffix), then tests the four markers in the fixed
priority order with first match winning, then the single-video patterns,
and errors exactly when nothing matches. -/
theorem C7_normalize_priority (url : List Char) :
    (matchChannel url = true →
      normalize_playlist_url url
        = .ok (rstripSlashes url ++ "/videos".toList, .channel_videos))
    ∧ (matchChannel url = false → containsSub "/videos".toList url = true →
      normalize_playlist_url url = .ok (url, .channel_videos))
    ∧ (matchChannel url = false → containsSub "/videos".toList url = false →
      containsSub "/shorts".toList url = true →
      normalize_playlist_url url = .ok (url, .channel_shorts))
    ∧ (matchChannel url = false → containsSub "/videos".toList url = false →
      containsSub "/shorts".toList url = false →
      (containsSub "/streams".toList url || containsSub "/live".toList url) = true →
      normalize_playlist_url url = .ok (url, .channel_live))
    ∧ (matchChannel url = false → containsSub "/videos".toList url = false →
      containsSub "/shorts".toList url = false →
      containsSub "/streams".toList url = false →
      containsSub "/live".toList url = false →
      containsSub "playlist?list=".toList url = true →
      normalize_playlist_url url = .ok (url, .playlist))
    ∧ (matchChannel url = false → containsSub "/videos".toList url = false →
      containsSub "/shorts".toList url = false →
      containsSub "/streams".toList url = false →
      containsSub "/live".toList url = false →
      containsSub "playlist?list=".toList url = false →
      videoPatternFound url = true →
      normalize_playlist_url url = .ok (url, .single_video))
    ∧ ((normalize_playlist_url url).isOk = false ↔
      (matchChannel url = false ∧ containsSub "/videos".toList url = false
        ∧ containsSub "/shorts".toList url = false
        ∧ containsSub "/streams".toList url = false
        ∧ containsSub "/live".toList url = false
        ∧ containsSub "playlist?list=".toList url = false
        ∧ videoPatternFound url = false)) := by
  refine ⟨?_, ?_, ?_, ?_, ?_, ?_, ?_⟩
  · intro h1
    unfold normalize_playlist_url
    rw [if_pos h1]
  · intro h1 h2
    unfold normalize_playlist_url
    rw [if_neg (by simp [h1]), if_pos h2]
  · intro h1 h2 h3
    unfold normalize_playlist_url
    rw [if_neg (by rw [h1]; simp), if_neg (by rw [h2]; simp), if_pos h3]
  · intro h1 h2 h3 h4
    unfold normalize_playlist_url
    rw [if_neg (by rw [h1]; simp), if_neg (by rw [h2]; simp),
      if_neg (by rw [h3]; simp), if_pos h4]
  · intro h1 h2 h3 h4 h5 h6
    unfold normalize_playlist_url
    rw [if_neg (by rw [h1]; simp), if_neg (by rw [h2]; simp),
      if_neg (by rw [h3]; simp), if_neg (by rw [h4, h5]; simp), if_pos h6]
  · intro h1 h2 h3 h4 h5 h6 h7
    unfold normalize_playlist_url
    rw [if_neg (by rw [h1]; simp), if_neg (by rw [h2]; simp),
      if_neg (by rw [h3]; simp), if_neg (by rw [h4, h5]; simp),
      if_neg (by rw [h6]; simp), if_pos h7]
  · constructor
    · intro h
      unfold normalize_playlist_url at h
      by_cases h1 : matchChannel url = true
      · rw [if_pos h1] at h; simp [Except.isOk, Except.toBool] at h
      replace h1 : matchChannel url = false := by simpa using h1
      rw [if_neg (by rw [h1]; simp)] at h
      by_cases h2 : containsSub "/videos".toList url = true
      · rw [if_pos h2] at h; simp [Except.isOk, Except.toBool] at h
      replace h2 : containsSub "/videos".toList url = false := by simpa using h2
      rw [if_neg (by rw [h2]; simp)] at h
      by_cases h3 : containsSub "/shorts".toList url = true
      · rw [if_pos h3] at h; simp [Except.isOk, Except.toBool] at h
      replace h3 : containsSub "/shorts".toList url = false := by simpa using h3
      rw [if_neg (by rw [h3]; simp)] at h
      by_cases h4 : containsSub "/streams".toList url = true
      · rw [if_pos (show (containsSub "/streams".toList url
            || containsSub "/live".toList url) = true by rw [h4]; simp)] at h
        simp [Except.isOk, Except.toBool] at h
      replace h4 : containsSub "/streams".toList url = false := by simpa using h4
      by_cases h5 : containsSub "/live".toList url = true
      · rw [if_pos (show (containsSub "/streams".toList url
            || containsSub "/live".toList url) = true by rw [h5]; simp)] at h
        simp [Except.isOk, Except.toBool] at h
      replace h5 : containsSub "/live".toList url = false := by simpa using h5
      rw [if_neg (by rw [h4, h5]; simp)] at h
      by_cases h6 : containsSub "playlist?list=".toList url = true
      · rw [if_pos h6] at h; simp [Except.isOk, Except.toBool] at h
      replace h6 : containsSub "playlist?list=".toList url = false := by
        simpa using h6
      rw [if_neg (by rw [h6]; simp)] at h
      by_cases h7 : videoPatternFound url = true
      · rw [if_pos h7] at h; simp [Except.isOk, Except.toBool] at h
      replace h7 : videoPatternFound url = false := by simpa using h7
      exact ⟨h1, h2, h3, h4, h5, h6, h7⟩
    · rintro ⟨h1, h2, h3, h4, h5, h6, h7⟩
      unfold normalize_playlist_url
      rw [if_neg (by rw [h1]; simp), if_neg (by rw [h2]; simp),
        if_neg (by rw [h3]; simp), if_neg (by rw [h4, h5]; simp),
        if_neg (by rw [h6]; simp), if_neg (by rw [h7]; simp)]
      rfl

/-- Witness for C7 at one concrete URL of each shape, plus the error case:
the handle URL is rewritten with `/videos`, each marker maps to its kind in
priority order, a watch URL is a single video, and an unrecognized string
is refused. -/
theorem C7_normalize_priority_witness :
    normalize_playlist_url "https://www.youtube.com/@handle".toList
      = .ok (rstripSlashes "https://www.youtube.com/@handle".toList
          ++ "/videos".toList, .channel_videos)
    ∧ normalize_playlist_url "https://www.youtube.com/c/x/videos".toList
      = .ok ("https://www.youtube.com/c/x/videos".toList, .channel_videos)
    ∧ normalize_playlist_url "https://www.youtube.com/c/x/shorts".toList
      = .ok ("https://www.youtube.com/c/x/shorts".toList, .channel_shorts)
    ∧ normalize_playlist_url "https://www.youtube.com/c/x/streams".toList
      = .ok ("https://www.youtube.com/c/x/streams".toList, .channel_live)
    ∧ normalize_playlist_url
        "https://www.youtube.com/playlist?list=PL123".toList
      = .ok ("https://www.youtube.com/playlist?list=PL123".toList, .playlist)
    ∧ normalize_playlist_url
        "https://www.youtube.com/watch?v=dQw4w9WgXcQ".toList
      = .ok ("https://www.youtube.com/watch?v=dQw4w9WgXcQ".toList,
          .single_video)
    ∧ (normalize_playlist_url "not a url".toList).isOk = false := by
  refine ⟨?_, ?_, ?_, ?_, ?_, ?_, ?_⟩
  · exact (C7_normalize_priority _).1 (by decide)
  · exact (C7_normalize_priority _).2.1 (by decide) (by decide)
  · exact (C7_normalize_priority _).2.2.1 (by decide) (by decide) (by decide)
  · exact (C7_normalize_priority _).2.2.2.1 (by decide) (by decide) (by decide)
      (by decide)
  · exact (C7_normalize_priority _).2.2.2.2.1 (by decide) (by decide)
      (by decide) (by decide) (by decide) (by decide)
  · exact (C7_normalize_priority _).2.2.2.2.2.1 (by decide) (by decide)
      (by decide) (by decide) (by decide) (by decide) (by decide)
  · exact (C7_normalize_priority _).2.2.2.2.2.2.mpr
      ⟨by decide, by decide, by decide, by decide, by decide, by decide,
        by decide⟩

/-! ## The capturing logger (src/video_kb_simple/logger.py) -/

namespace Logging

/-- Python `logging.DEBUG`. -/
def DEBUG : Nat := 10

/-- Python `logging.INFO`. -/
def INFO : Nat := 20

/-- Python `logging.WARNING`. -/
def WARNING : Nat := 30

/-- Python `logging.ERROR`. -/
def ERROR : Nat := 40

end Logging

namespace YTDLPLogger

/-- The mutable state of a `YTDLPLogger` (logger.py lines 44-52): its
verbosity level, its message prefix (the source field `prefix`, renamed
here), and the two captured-message lists. -/
structure State where
  level : Nat
  log_tag : String
  captured_warnings : List String
  captured_errors : List String
deriving DecidableEq

/-- The message the logger builds (logger.py lines 71-73 and 80-82):
`escape(f"[YT-DLP] [{self.prefix}]")` then a space then `ansi_to_rich(msg)`.
The two external text transforms (`rich.markup.escape` and the repository's
`ansi_to_rich`, presentation-layer code out of the claims' scope) are the
oracle parameters `esc` and `rich`. -/
def full_msg (esc rich : String → String) (tag msg : String) : String :=
  esc ("[YT-DLP] [" ++ tag ++ "]") ++ " " ++ rich msg

/-- `YTDLPLogger.warning` (logger.py lines 68-75): only when
`self.level <= logging.WARNING` is the message built, logged and appended
to `captured_warnings`. -/
def warning_step (esc rich : String → String) (st : State) (msg : String) :
    State :=
  if st.level ≤ Logging.WARNING then
    { st with captured_warnings :=
        st.captured_warnings ++ [full_msg esc rich st.log_tag msg] }
  else st

/-- `YTDLPLogger.error` (logger.py lines 77-84): gated by the same
`self.level <= logging.WARNING` test as `warning`, appending to
`captured_errors`. -/
def error_step (esc rich : String → String) (st : State) (msg : String) :
    State :=
  if st.level ≤ Logging.WARNING then
    { st with captured_errors :=
        st.captured_errors ++ [full_msg esc rich st.log_tag msg] }
  else st

end YTDLPLogger

/-- The log level the CLI configures (cli.py lines 120-126): DEBUG with
`--debug`, INFO with `--verbose`, WARNING otherwise. -/
def cli_log_level (debug verbose : Bool) : Nat :=
  if debug then Logging.DEBUG
  else if verbose then Logging.INFO
  else Logging.WARNING

/-! ## C8: warning/error capture and the verbosity gate

The claim says warnings and errors are captured regardless of the
configured verbosity. In logger.py both `warning` and `error` append only
when `self.level <= logging.WARNING`, so at level `logging.ERROR` (or
higher) an extractor warning or error message is dropped, not captured.
Every level the CLI actually configures (DEBUG, INFO, WARNING) is at most
WARNING, so capture does happen for all CLI-reachable configurations. -/

/-- C8 counterexample: at the standard level `logging.ERROR` (40) — a value
the handler's integer `log_level` parameter accepts — the capturing logger
appends neither an extractor warning nor an extractor error: the state is
returned unchanged and the captured lists stay empty, contradicting
"capture happens regardless of the verbosity setting". -/
theorem C8_capture_counterexample :
    YTDLPLogger.warning_step id id
        ⟨Logging.ERROR, "V1", [], []⟩ "some yt-dlp warning"
      = ⟨Logging.ERROR, "V1", [], []⟩
    ∧ YTDLPLogger.error_step id id
        ⟨Logging.ERROR, "V1", [], []⟩ "some yt-dlp error"
      = ⟨Logging.ERROR, "V1", [], []⟩
    ∧ (YTDLPLogger.warning_step id id
        ⟨Logging.ERROR, "V1", [], []⟩ "some yt-dlp warning").captured_warnings
      = []
    ∧ (YTDLPLogger.error_step id id
        ⟨Logging.ERROR, "V1", [], []⟩ "some yt-dlp error").captured_errors
      = [] := by
  refine ⟨?_, ?_, ?_, ?_⟩ <;> rfl

/-- C8 (amended): for every log level at most `logging.WARNING` — which
covers every level the CLI configures — an extractor message at warning
severity is appended to the captured warnings and one at error severity to
the captured errors, whatever the message and the text transforms. -/
theorem C8_capture_at_or_below_warning (esc rich : String → String)
    (st : YTDLPLogger.State) (msg : String)
    (h : st.level ≤ Logging.WARNING) :
    (YTDLPLogger.warning_step esc rich st msg).captured_warnings
      = st.captured_warnings ++ [YTDLPLogger.full_msg esc rich st.log_tag msg]
    ∧ (YTDLPLogger.error_step esc rich st msg).captured_errors
      = st.captured_errors ++ [YTDLPLogger.full_msg esc rich st.log_tag msg]
    ∧ (∀ debug verbose : Bool, cli_log_level debug verbose ≤ Logging.WARNING) := by
  refine ⟨?_, ?_, ?_⟩
  · simp [YTDLPLogger.warning_step, h]
  · simp [YTDLPLogger.error_step, h]
  · intro debug verbose
    cases debug <;> cases verbose <;> decide

/-- Witness for C8's amended theorem at level WARNING (the CLI's default)
with identity text transforms. -/
theorem C8_capture_witness :
    (YTDLPLogger.warning_step id id
        ⟨Logging.WARNING, "V1", [], []⟩ "w").captured_warnings
      = ([] : List String) ++ [YTDLPLogger.full_msg id id "V1" "w"]
    ∧ (YTDLPLogger.error_step id id
        ⟨Logging.WARNING, "V1", [], []⟩ "e").captured_errors
      = ([] : List String) ++ [YTDLPLogger.full_msg id id "V1" "e"] :=
  ⟨(C8_capture_at_or_below_warning id id ⟨Logging.WARNING, "V1", [], []⟩ "w"
      (by decide)).1,
   (C8_capture_at_or_below_warning id id ⟨Logging.WARNING, "V1", [], []⟩ "e"
      (by decide)).2.1⟩

/-! ## C10: the failed-result constructor always fails -/

/-- C10: every VideoResult built by `_create_failed_result` has a non-empty
`errors` list (when none is supplied, the error message itself is inserted),
so it classifies as `fail` and never as full or partial success. -/
theorem C10_failed_result_is_fail (video_url error_message : String)
    (video_id title : Option String) (downloaded_files : Option (List DownloadedFile))
    (warnings errors : Option (List String)) :
    (YTDLPHandler._create_failed_result video_url error_message video_id title
        downloaded_files warnings errors).errors ≠ []
    ∧ (YTDLPHandler._create_failed_result video_url error_message video_id title
        downloaded_files warnings errors).is_fail = true
    ∧ (YTDLPHandler._create_failed_result video_url error_message video_id title
        downloaded_files warnings errors).is_full_success = false
    ∧ (YTDLPHandler._create_failed_result video_url error_message video_id title
        downloaded_files warnings errors).is_partial_success = false := by
  rcases errors with _ | ⟨_ | ⟨e, es⟩⟩ <;>
    simp [YTDLPHandler._create_failed_result, VideoResult.is_fail,
      VideoResult.is_full_success, VideoResult.is_partial_success]

end VideoKB
